import Mathlib

/-!
Verification of the ollama_proxy reverse proxy (src/main.py) against its
natural-language specification.

The embedding models the Python source shallowly:
- Python `str` operations (`replace`, `strip`, `split`, `lower`) are
  reimplemented over `List Char` with Python's semantics and wrapped for
  `String`.
- Python `dict` construction (insertion order preserved, update-in-place on
  duplicate keys) is modelled by `dictInsert` over association lists.
- The module-level globals `API_TOKEN`, `BACKENDS`, `DEFAULT_BACKEND` become
  explicit parameters of the modelled functions.
- FastAPI/Starlette routing (registration order `GET /`, `GET /health`,
  `/{instance}/{path:path}`, `/{path:path}`; the `{instance}` parameter
  matches one nonempty slash-free segment, `{path:path}` matches the rest)
  is modelled by `route_dispatch` over the request path without its leading
  slash.
- `HTTPException(status, detail)` becomes an explicit error value; FastAPI
  renders it as a JSON object with a `detail` field.
-/

set_option maxHeartbeats 1000000

namespace OllamaProxy

/-! ## Python string primitives over lists of characters -/

/-- Does the second list start with the first? (pattern, string). -/
def leadsWith : List Char → List Char → Bool
  | [], _ => true
  | _ :: _, [] => false
  | p :: ps, c :: cs => p == c && leadsWith ps cs

/-- Does the string (second argument) contain the pattern (first argument)
as a contiguous sublist? Mirrors Python `in` on strings. -/
def hasOccur (pat : List Char) : List Char → Bool
  | [] => pat.isEmpty
  | c :: rest => leadsWith pat (c :: rest) || hasOccur pat rest

/-- Scanner for Python `str.replace`: walk the string; on a match of the
(nonempty) pattern at the current position emit the replacement and skip the
remaining `pat.length - 1` matched characters via the counter; otherwise
copy one character. Structural recursion on the string. -/
def listReplaceAux (pat repl : List Char) : List Char → Nat → List Char
  | [], _ => []
  | c :: rest, 0 =>
    if !pat.isEmpty && leadsWith pat (c :: rest) then
      repl ++ listReplaceAux pat repl rest (pat.length - 1)
    else c :: listReplaceAux pat repl rest 0
  | _ :: rest, k + 1 => listReplaceAux pat repl rest k

/-- Python `s.replace(old, new)` for nonempty `old`: replace all leftmost
non-overlapping occurrences, scanning left to right. -/
def listReplace (s pat repl : List Char) : List Char :=
  listReplaceAux pat repl s 0

/-- Characters Python `str.strip()` removes (ASCII whitespace). -/
def isPyWhitespace (c : Char) : Bool :=
  c == ' ' || c == '\t' || c == '\n' || c == '\r' || c == '\x0B' || c == '\x0C'

/-- Python `str.strip()` on a character list. -/
def stripL (s : List Char) : List Char :=
  ((s.dropWhile isPyWhitespace).reverse.dropWhile isPyWhitespace).reverse

/-- Python `s.split(sep)` for a single-character separator. -/
def splitCharAux (sep : Char) : List Char → List Char → List (List Char)
  | [], acc => [acc.reverse]
  | c :: rest, acc =>
    if c == sep then acc.reverse :: splitCharAux sep rest []
    else splitCharAux sep rest (c :: acc)

/-- Lowercase an ASCII character, Python `str.lower` restricted to ASCII
(header names are ASCII). -/
def asciiLowerChar (c : Char) : Char :=
  if 'A' ≤ c ∧ c ≤ 'Z' then Char.ofNat (c.toNat + 32) else c

/-- Join a list of character lists with a separator, Python `sep.join`. -/
def intercalateL (sep : List Char) : List (List Char) → List Char
  | [] => []
  | [x] => x
  | x :: xs => x ++ sep ++ intercalateL sep xs

/-! ## String wrappers -/

/-- Python `s.replace(old, new)`. -/
def pythonReplace (s old new : String) : String :=
  ⟨listReplace s.data old.data new.data⟩

/-- Python `s.strip()`. -/
def pythonStrip (s : String) : String :=
  ⟨stripL s.data⟩

/-- Python `s.split(sep)` for a one-character separator. -/
def pythonSplit1 (s : String) (sep : Char) : List String :=
  (splitCharAux sep s.data []).map String.mk

/-- Python `s.lower()` (ASCII). -/
def pythonLower (s : String) : String :=
  ⟨s.data.map asciiLowerChar⟩

/-- Python `pat in s` for strings. -/
def strContains (s pat : String) : Bool :=
  hasOccur pat.data s.data

/-- Python `sep.join(parts)`. -/
def strIntercalate (sep : String) (l : List String) : String :=
  ⟨intercalateL sep.data (l.map String.data)⟩

/-! ## Python dict model (association list, insertion order preserved) -/

/-- Python `d[k] = v`: update in place if the key exists, else append. -/
def dictInsert (d : List (String × String)) (k v : String) :
    List (String × String) :=
  if k ∈ d.map Prod.fst then
    d.map (fun kv => if kv.1 = k then (k, v) else kv)
  else
    d ++ [(k, v)]

/-- Python `d[k]` / `k in d` combined: lookup by key. -/
def dictGet (d : List (String × String)) (k : String) : Option String :=
  (d.find? (fun kv => kv.1 == k)).map Prod.snd

/-! ## JSON values (the structured data the proxy passes through) -/

/-- JSON values as produced by Python `json.loads` (numbers restricted to
integers, which suffices for the claims). -/
inductive Json where
  | null
  | bool (b : Bool)
  | num (n : Int)
  | str (s : String)
  | arr (elems : List Json)
  | obj (fields : List (String × Json))

/-- Python truthiness of a JSON value (`if value:`). -/
def pythonTruthy : Json → Bool
  | .null => false
  | .bool b => b
  | .num n => n != 0
  | .str s => s != ""
  | .arr l => !l.isEmpty
  | .obj l => !l.isEmpty

/-- Lookup in a JSON object's field list (Python `dict.get`). -/
def jsonGet (fields : List (String × Json)) (k : String) : Option Json :=
  (fields.find? (fun kv => kv.1 == k)).map Prod.snd

/-! ## src/main.py lines 57-73: backend registry construction -/

/-- Lines 57-70, `parse_ollama_instances`: split the configuration string on
commas; each entry is stripped and split on colons; `name:host:port` and
`name:port` entries are inserted into the dict, anything else is skipped. -/
def parse_ollama_instances (OLLAMA_INSTANCES : String) :
    List (String × String) :=
  (pythonSplit1 OLLAMA_INSTANCES ',').foldl
    (fun instances instance_config =>
      match pythonSplit1 (pythonStrip instance_config) ':' with
      | [name, host, port] =>
          dictInsert instances name ("http://" ++ host ++ ":" ++ port)
      | [name, port] =>
          dictInsert instances name ("http://localhost:" ++ port)
      | _ => instances)
    []

/-- Line 73: `DEFAULT_BACKEND = list(BACKENDS.values())[0] if BACKENDS else
"http://localhost:11434"`. -/
def DEFAULT_BACKEND (BACKENDS : List (String × String)) : String :=
  match BACKENDS with
  | [] => "http://localhost:11434"
  | kv :: _ => kv.2

/-! ## src/main.py lines 79-106: token verification -/

/-- Outcome of `verify_token`: either the request proceeds, or an
`HTTPException(status, detail, headers)` is raised (the optional string is
the `WWW-Authenticate` response header). -/
inductive AuthResult where
  | allowed
  | denied (status : Nat) (detail : String) (www_authenticate : Option String)
  deriving DecidableEq, Repr

/-- Lines 79-106, `verify_token`, with the global `API_TOKEN` made explicit.
Python `if not authorization` treats an absent header and an empty header
value the same way, hence the two 401 branches. -/
def verify_token (API_TOKEN : String) (authorization : Option String) :
    AuthResult :=
  if API_TOKEN = "" then .allowed
  else
    match authorization with
    | none => .denied 401 "Missing Authorization header" (some "Bearer")
    | some a =>
      if a = "" then .denied 401 "Missing Authorization header" (some "Bearer")
      else
        let token := pythonStrip (pythonReplace a "Bearer " "")
        if token ≠ API_TOKEN then
          .denied 403 "Invalid authentication token" none
        else .allowed

/-! ## src/main.py lines 109-116: backend resolution -/

/-- Lines 109-116, `get_backend_url`: a present, nonempty, known instance
name resolves to its URL, anything else to the default backend (Python
`if instance_name and instance_name in BACKENDS`). -/
def get_backend_url (BACKENDS : List (String × String))
    (instance_name : Option String) : String :=
  match instance_name with
  | some n =>
    if n ≠ "" then
      match dictGet BACKENDS n with
      | some backend => backend
      | none => DEFAULT_BACKEND BACKENDS
    else DEFAULT_BACKEND BACKENDS
  | none => DEFAULT_BACKEND BACKENDS

/-! ## Route handlers, src/main.py lines 119-180 -/

/-- Result of a route handler before any backend I/O: either a locally
produced JSON answer, or a forward to a target URL handled by
`proxy_request`. -/
inductive HandlerResult where
  | answer (status : Nat) (body : Json)
  | forward (target_url : String)

/-- Status code of a locally answered response, if any. -/
def HandlerResult.statusOf : HandlerResult → Option Nat
  | .answer status _ => some status
  | .forward _ => none

/-- Lines 119-127, `root`: FastAPI returns the dict with status 200. -/
def root_handler (BACKENDS : List (String × String)) (API_TOKEN : String) :
    HandlerResult :=
  .answer 200 (Json.obj
    [("service", Json.str "Ollama Proxy"),
     ("status", Json.str "running"),
     ("backends", Json.arr (BACKENDS.map (fun kv => Json.str kv.1))),
     ("authentication",
       Json.str (if API_TOKEN = "" then "disabled" else "enabled"))])

/-- Lines 130-133, `health`. -/
def health_handler : HandlerResult :=
  .answer 200 (Json.obj [("status", Json.str "healthy")])

/-- Lines 136-160, `proxy_with_instance` (target-URL computation): a known
first segment selects its backend and forwards the remainder; otherwise the
entire original path goes to the default backend. -/
def proxy_with_instance_handler (BACKENDS : List (String × String))
    (DEFAULT : String) (inst path : String) : HandlerResult :=
  match dictGet BACKENDS inst with
  | some backend_url => .forward (backend_url ++ "/" ++ path)
  | none =>
      let full_path := if path ≠ "" then inst ++ "/" ++ path else inst
      .forward (DEFAULT ++ "/" ++ full_path)

/-- Lines 163-180, `proxy_default`: the empty path and `health` are answered
locally with `{"status": "ok"}`, everything else is forwarded to the default
backend. -/
def proxy_default_handler (DEFAULT : String) (path : String) : HandlerResult :=
  if path = "" ∨ path = "health" then
    .answer 200 (Json.obj [("status", Json.str "ok")])
  else .forward (DEFAULT ++ "/" ++ path)

/-! ## Route dispatch (FastAPI registration order, lines 119/130/136/163) -/

/-- Line 136 and line 163: the HTTP methods accepted by both api_route
registrations. -/
def HTTP_METHODS : List String :=
  ["GET", "POST", "PUT", "DELETE", "PATCH", "OPTIONS"]

/-- Which registered route matches a request. -/
inductive MatchedRoute where
  | root
  | health
  | withInstance (inst rest : String)
  | defaultRoute (path : String)
  deriving DecidableEq, Repr

/-- Starlette route matching in registration order, over the request path
without its leading slash: `GET /` and `GET /health` match the two literal
routes; `/{instance}/{path:path}` needs a nonempty slash-free first segment
followed by a slash; `/{path:path}` matches everything else. -/
def route_dispatch (method : String) (rel_path : String) :
    Option MatchedRoute :=
  if method = "GET" ∧ rel_path = "" then some MatchedRoute.root
  else if method = "GET" ∧ rel_path = "health" then some MatchedRoute.health
  else if HTTP_METHODS.contains method then
    match pythonSplit1 rel_path '/' with
    | [] => none
    | [p] => some (MatchedRoute.defaultRoute p)
    | seg :: rest =>
        if seg = "" then some (MatchedRoute.defaultRoute rel_path)
        else some (MatchedRoute.withInstance seg (strIntercalate "/" rest))
  else none

/-- Do the proxy handlers run `Depends(verify_token)`? (Lines 141 and 167;
`root` and `health` declare no such dependency.) -/
def route_requires_auth : MatchedRoute → Bool
  | .root => false
  | .health => false
  | .withInstance _ _ => true
  | .defaultRoute _ => true

/-- Run the matched route's handler (before any backend I/O). -/
def run_handler (BACKENDS : List (String × String)) (DEFAULT API_TOKEN : String) :
    MatchedRoute → HandlerResult
  | .root => root_handler BACKENDS API_TOKEN
  | .health => health_handler
  | .withInstance i p => proxy_with_instance_handler BACKENDS DEFAULT i p
  | .defaultRoute p => proxy_default_handler DEFAULT p

/-- Full request pipeline up to backend dispatch: route matching, then the
authorization gate for routes that declare it, then the handler. `none`
means no route matched; `Sum.inr` is a denial from `verify_token`. -/
def handle_request (BACKENDS : List (String × String))
    (DEFAULT API_TOKEN : String) (method rel_path : String)
    (authorization : Option String) :
    Option (HandlerResult ⊕ (Nat × String)) :=
  match route_dispatch method rel_path with
  | none => none
  | some r =>
    if route_requires_auth r then
      match verify_token API_TOKEN authorization with
      | .allowed => some (Sum.inl (run_handler BACKENDS DEFAULT API_TOKEN r))
      | .denied status detail _ => some (Sum.inr (status, detail))
    else some (Sum.inl (run_handler BACKENDS DEFAULT API_TOKEN r))

/-! ## src/main.py lines 193-200: streaming-mode sniffing -/

/-- Lines 193-200: `json.loads(body)` then `body_json.get("stream", False)`;
a missing body, a parse failure, a non-object body (whose `.get` raises and
is swallowed by the bare `except`) and an absent `stream` field all leave
`is_stream_request` false; otherwise Python truthiness of the field value
decides. The parse outcome is the model's input. -/
def is_stream_request (body_json : Option Json) : Bool :=
  match body_json with
  | some (.obj fields) =>
    match jsonGet fields "stream" with
    | some v => pythonTruthy v
    | none => false
  | _ => false

/-! ## src/main.py lines 218-223: outbound header construction -/

/-- Lines 218-223: the dict comprehension over `request.headers.items()`
keeping only keys whose lowercase form is neither `host` nor
`authorization`, modelled as the corresponding left fold of dict
insertions. -/
def build_outbound_headers (headers : List (String × String)) :
    List (String × String) :=
  headers.foldl
    (fun d kv =>
      if ["host", "authorization"].contains (pythonLower kv.1) then d
      else dictInsert d kv.1 kv.2)
    []

/-! ## src/main.py lines 231-262: streaming relay -/

/-- The backend's streaming response as the generator observes it: a status
code and the chunk sequence produced by `response.aiter_bytes()` (chunks are
byte lists). -/
structure BackendStreamResponse where
  status_code : Nat
  chunks : List (List Nat)

/-- Lines 235-256, `stream_generator`: `async for chunk in
response.aiter_bytes(): yield chunk` — each received chunk is yielded, in
arrival order, one at a time. -/
def stream_generator : List (List Nat) → List (List Nat)
  | [] => []
  | chunk :: rest => chunk :: stream_generator rest

/-- Lines 259-262: `StreamingResponse(stream_generator(), media_type=
"application/json")` — no `status_code` argument is passed, so Starlette's
default of 200 is used; the body is the generator's yield sequence. -/
def relay_stream (resp : BackendStreamResponse) : Nat × List (List Nat) :=
  (200, stream_generator resp.chunks)

/-! ## src/main.py lines 264-303: buffered relay -/

/-- Lines 281-303: `response.json() if response.text else {}` guarded by
try/except substituting `{"raw_response": response.text}`, returned as
`JSONResponse(content=response_data, status_code=response.status_code)`.
The JSON parser is passed as a parameter (`parse text = none` models a
`json.loads` failure); the pair is (status toward the caller, body). -/
def reconstruct_response (status : Nat) (text : String)
    (parse : String → Option Json) : Nat × Json :=
  let response_data :=
    if text = "" then Json.obj []
    else
      match parse text with
      | some j => j
      | none => Json.obj [("raw_response", Json.str text)]
  (status, response_data)

/-- A concrete JSON parser fragment used to instantiate
`reconstruct_response` on closed inputs. -/
def parseEmptyArr : String → Option Json :=
  fun s => if s = "[]" then some (Json.arr []) else none

/-! ## src/main.py lines 305-322: dispatch failure taxonomy -/

/-- The three except-clauses' domains: `httpx.ConnectError`,
`httpx.TimeoutException`, and any other `Exception`, each carrying
`str(e)`. -/
inductive DispatchError where
  | connectError (msg : String)
  | timeoutError (msg : String)
  | otherError (msg : String)

/-- Lines 305-322: each failure is converted to an `HTTPException`, which
FastAPI renders as a JSON object with a `detail` field; the pair is
(status, body). -/
def handle_dispatch_error : DispatchError → Nat × Json
  | .connectError msg =>
      (502, Json.obj
        [("detail", Json.str ("Cannot connect to Ollama backend: " ++ msg))])
  | .timeoutError _ =>
      (504, Json.obj [("detail", Json.str "Ollama backend timeout")])
  | .otherError msg =>
      (500, Json.obj [("detail", Json.str ("Proxy error: " ++ msg))])

/-- The detail string of a rendered error body, when it has the
`HTTPException` shape. -/
def json_detail : Json → Option String
  | .obj [("detail", .str d)] => some d
  | _ => none

/-! ## Supporting lemmas -/

theorem strData_append (s t : String) : (s ++ t).data = s.data ++ t.data :=
  rfl

theorem strMk_data (s : String) : String.mk s.data = s :=
  rfl

theorem leadsWith_append (p t : List Char) : leadsWith p (p ++ t) = true := by
  induction p with
  | nil => rfl
  | cons c cs ih => simp [leadsWith, ih]

theorem hasOccur_cons_false {pat : List Char} {c : Char} {rest : List Char}
    (h : hasOccur pat (c :: rest) = false) :
    leadsWith pat (c :: rest) = false ∧ hasOccur pat rest = false := by
  simpa [hasOccur] using h

theorem leadsWith_mono (p s t : List Char) (h : leadsWith p s = true) :
    leadsWith p (s ++ t) = true := by
  induction p generalizing s with
  | nil => rfl
  | cons q qs ih =>
    cases s with
    | nil => exact absurd h (by simp [leadsWith])
    | cons c cs =>
      simp only [leadsWith, Bool.and_eq_true, beq_iff_eq] at h
      simp [leadsWith, h.1, ih cs h.2]

theorem hasOccur_append_left {pat s : List Char} (t : List Char)
    (h : hasOccur pat s = true) : hasOccur pat (s ++ t) = true := by
  induction s with
  | nil =>
    simp only [hasOccur, List.isEmpty_iff] at h
    subst h
    cases t with
    | nil => rfl
    | cons c cs => simp [hasOccur, leadsWith]
  | cons c cs ih =>
    simp only [hasOccur, Bool.or_eq_true] at h ⊢
    rcases h with h | h
    · exact Or.inl (leadsWith_mono pat (c :: cs) t h)
    · exact Or.inr (ih h)

theorem hasOccur_append_pat (pat s : List Char) :
    hasOccur pat (s ++ pat) = true := by
  induction s with
  | nil =>
    cases pat with
    | nil => rfl
    | cons c cs =>
      simp only [List.nil_append, hasOccur, Bool.or_eq_true]
      left
      have := leadsWith_append (c :: cs) []
      simpa using this
  | cons c cs ih =>
    simp [hasOccur, ih]

theorem listReplaceAux_no_occur (pat repl s : List Char)
    (h : hasOccur pat s = false) : listReplaceAux pat repl s 0 = s := by
  induction s with
  | nil => rfl
  | cons c cs ih =>
    obtain ⟨h1, h2⟩ := hasOccur_cons_false h
    simp [listReplaceAux, h1, ih h2]

theorem listReplace_no_occur (s pat repl : List Char)
    (h : hasOccur pat s = false) : listReplace s pat repl = s :=
  listReplaceAux_no_occur pat repl s h

theorem listReplaceAux_skip (pat repl ps t : List Char) :
    listReplaceAux pat repl (ps ++ t) ps.length = listReplaceAux pat repl t 0 := by
  induction ps generalizing t with
  | nil => rfl
  | cons c cs ih => simpa [listReplaceAux] using ih t

theorem listReplace_strip_lead (pat t : List Char) (hpat : pat ≠ [])
    (h : hasOccur pat t = false) : listReplace (pat ++ t) pat [] = t := by
  cases pat with
  | nil => exact absurd rfl hpat
  | cons c cs =>
    show listReplaceAux (c :: cs) [] (c :: (cs ++ t)) 0 = t
    have hlead : leadsWith (c :: cs) (c :: (cs ++ t)) = true := by
      have := leadsWith_append (c :: cs) t
      simpa using this
    simp only [listReplaceAux, List.isEmpty_cons, Bool.not_false, hlead,
      Bool.and_self, if_pos, List.nil_append, List.length_cons,
      Nat.add_sub_cancel]
    rw [listReplaceAux_skip (c :: cs) [] cs t]
    exact listReplaceAux_no_occur (c :: cs) [] t h

theorem splitCharAux_ne_nil (sc : Char) (s acc : List Char) :
    splitCharAux sc s acc ≠ [] := by
  induction s generalizing acc with
  | nil => simp [splitCharAux]
  | cons c cs ih =>
    by_cases h : c == sc
    · simp [splitCharAux, h]
    · simp only [splitCharAux, h, Bool.false_eq_true, if_false]
      exact ih (c :: acc)

theorem splitCharAux_no_sep (sc : Char) (s acc : List Char) (h : sc ∉ s) :
    splitCharAux sc s acc = [acc.reverse ++ s] := by
  induction s generalizing acc with
  | nil => simp [splitCharAux]
  | cons c cs ih =>
    have hc : (c == sc) = false := by
      simp only [List.mem_cons, not_or] at h
      exact beq_eq_false_iff_ne.mpr fun hh => h.1 hh.symm
    simp only [splitCharAux, hc, Bool.false_eq_true, if_false]
    rw [ih (c :: acc) (fun hm => h (List.mem_cons_of_mem c hm))]
    simp

theorem splitCharAux_concat (sc : Char) (nd pd acc : List Char)
    (h : sc ∉ nd) :
    splitCharAux sc (nd ++ sc :: pd) acc
      = (acc.reverse ++ nd) :: splitCharAux sc pd [] := by
  induction nd generalizing acc with
  | nil => simp [splitCharAux]
  | cons c cs ih =>
    have hc : (c == sc) = false := by
      simp only [List.mem_cons, not_or] at h
      exact beq_eq_false_iff_ne.mpr fun hh => h.1 hh.symm
    simp only [List.cons_append, splitCharAux, hc, Bool.false_eq_true,
      if_false, List.append_eq]
    rw [ih (c :: acc) (fun hm => h (List.mem_cons_of_mem c hm))]
    simp

theorem intercalateL_splitCharAux (sc : Char) (s acc : List Char) :
    intercalateL [sc] (splitCharAux sc s acc) = acc.reverse ++ s := by
  induction s generalizing acc with
  | nil => simp [splitCharAux, intercalateL]
  | cons c cs ih =>
    by_cases h : c == sc
    · have hcs : c = sc := by simpa [beq_iff_eq] using h
      simp only [splitCharAux, h, if_true]
      obtain ⟨b, bs, hb⟩ :=
        List.exists_cons_of_ne_nil (splitCharAux_ne_nil sc cs [])
      rw [hb]
      show acc.reverse ++ [sc] ++ intercalateL [sc] (b :: bs)
        = acc.reverse ++ c :: cs
      rw [← hb, ih []]
      simp [hcs]
    · simp only [splitCharAux, h, Bool.false_eq_true, if_false]
      rw [ih (c :: acc)]
      simp

theorem pythonReplace_no_occur (a pat new : String)
    (h : strContains a pat = false) : pythonReplace a pat new = a := by
  unfold pythonReplace
  rw [listReplace_no_occur a.data pat.data new.data h]

theorem pythonReplace_strip_lead (pat t : String) (hpat : pat.data ≠ [])
    (h : strContains t pat = false) :
    pythonReplace (pat ++ t) pat "" = t := by
  unfold pythonReplace
  rw [strData_append]
  rw [listReplace_strip_lead pat.data t.data hpat h]

theorem pythonSplit1_no_sep (n : String) (sc : Char) (h : sc ∉ n.data) :
    pythonSplit1 n sc = [n] := by
  unfold pythonSplit1
  rw [splitCharAux_no_sep sc n.data [] h]
  simp [strMk_data]

theorem pythonSplit1_ne_nil (p : String) (sc : Char) :
    pythonSplit1 p sc ≠ [] := by
  unfold pythonSplit1
  simp [splitCharAux_ne_nil]

theorem concat_slash_data (n p : String) :
    (n ++ "/" ++ p).data = n.data ++ '/' :: p.data := by
  rw [strData_append, strData_append]
  simp

theorem pythonSplit1_concat (n p : String) (h : '/' ∉ n.data) :
    pythonSplit1 (n ++ "/" ++ p) '/' = n :: pythonSplit1 p '/' := by
  unfold pythonSplit1
  rw [concat_slash_data, splitCharAux_concat '/' n.data p.data [] h]
  simp [strMk_data]

theorem strIntercalate_pythonSplit1 (p : String) :
    strIntercalate "/" (pythonSplit1 p '/') = p := by
  unfold strIntercalate pythonSplit1
  rw [List.map_map]
  have hmaps : (String.data ∘ String.mk) = id := by
    funext l
    rfl
  rw [hmaps, List.map_id]
  show String.mk (intercalateL ['/'] (splitCharAux '/' p.data [])) = p
  rw [intercalateL_splitCharAux '/' p.data []]
  simp [strMk_data]

theorem concat_slash_ne (n p s : String) (h : '/' ∉ s.data) :
    n ++ "/" ++ p ≠ s := by
  intro heq
  have hd : (n ++ "/" ++ p).data = s.data := congrArg String.data heq
  rw [concat_slash_data] at hd
  exact h (hd ▸ (by simp : '/' ∈ n.data ++ '/' :: p.data))

theorem route_dispatch_two_seg (m n p : String)
    (hm : HTTP_METHODS.contains m = true) (hn : n ≠ "")
    (hs : '/' ∉ n.data) :
    route_dispatch m (n ++ "/" ++ p)
      = some (MatchedRoute.withInstance n p) := by
  have hne1 : ¬(m = "GET" ∧ n ++ "/" ++ p = "") :=
    fun hc => concat_slash_ne n p "" (by simp) hc.2
  have hne2 : ¬(m = "GET" ∧ n ++ "/" ++ p = "health") :=
    fun hc => concat_slash_ne n p "health" (by decide) hc.2
  unfold route_dispatch
  rw [if_neg hne1, if_neg hne2, if_pos hm]
  rw [pythonSplit1_concat n p hs]
  obtain ⟨b, bs, hb⟩ :=
    List.exists_cons_of_ne_nil (pythonSplit1_ne_nil p '/')
  rw [hb]
  show (if n = "" then some (MatchedRoute.defaultRoute (n ++ "/" ++ p))
    else some (MatchedRoute.withInstance n (strIntercalate "/" (b :: bs))))
    = some (MatchedRoute.withInstance n p)
  rw [if_neg hn, ← hb, strIntercalate_pythonSplit1]

theorem route_dispatch_one_seg (m n : String)
    (hm : HTTP_METHODS.contains m = true) (h1 : n ≠ "") (h2 : n ≠ "health")
    (hs : '/' ∉ n.data) :
    route_dispatch m n = some (MatchedRoute.defaultRoute n) := by
  unfold route_dispatch
  rw [if_neg (fun hc => h1 hc.2), if_neg (fun hc => h2 hc.2), if_pos hm]
  rw [pythonSplit1_no_sep n '/' hs]

theorem dictInsert_not_mem (d : List (String × String)) (k v : String)
    (h : k ∉ d.map Prod.fst) : dictInsert d k v = d ++ [(k, v)] := by
  simp [dictInsert, h]

theorem foldl_headers_eq_filter (l acc : List (String × String))
    (h : ((acc ++ l).map Prod.fst).Nodup) :
    l.foldl
      (fun d kv =>
        if ["host", "authorization"].contains (pythonLower kv.1) then d
        else dictInsert d kv.1 kv.2)
      acc
      = acc ++ l.filter
          (fun kv => !(["host", "authorization"].contains (pythonLower kv.1))) := by
  induction l generalizing acc with
  | nil => simp
  | cons kv rest ih =>
    simp only [List.map_append, List.map_cons] at h
    by_cases hc : ["host", "authorization"].contains (pythonLower kv.1)
    · have hsub : ((acc ++ rest).map Prod.fst).Nodup := by
        rw [List.map_append]
        refine List.Nodup.sublist ?_ h
        exact (List.sublist_cons_self kv.1 (rest.map Prod.fst)).append_left
          (acc.map Prod.fst)
      simp only [List.foldl_cons, if_pos hc]
      rw [ih acc hsub, List.filter_cons, if_neg (by simp at hc ⊢; tauto)]
    · have hknotin : kv.1 ∉ acc.map Prod.fst := by
        rw [List.nodup_append] at h
        exact fun hmem => h.2.2 hmem (List.mem_cons_self kv.1 _)
      have hnd2 : (((acc ++ [kv]) ++ rest).map Prod.fst).Nodup := by
        simpa [List.append_assoc] using h
      simp only [List.foldl_cons, if_neg hc]
      rw [dictInsert_not_mem acc kv.1 kv.2 hknotin,
        show acc ++ [(kv.1, kv.2)] = acc ++ [kv] from by simp]
      rw [ih (acc ++ [kv]) hnd2, List.filter_cons,
        if_pos (by simp at hc ⊢; tauto)]
      simp [List.append_assoc]

theorem build_outbound_headers_eq_filter (headers : List (String × String))
    (h : (headers.map Prod.fst).Nodup) :
    build_outbound_headers headers
      = headers.filter
          (fun kv => !(["host", "authorization"].contains (pythonLower kv.1))) := by
  unfold build_outbound_headers
  have := foldl_headers_eq_filter headers [] (by simpa using h)
  simpa using this

theorem verify_token_some (T a : String) (hT : T ≠ "") (ha : a ≠ "") :
    verify_token T (some a)
      = if pythonStrip (pythonReplace a "Bearer " "") = T
        then AuthResult.allowed
        else AuthResult.denied 403 "Invalid authentication token" none := by
  unfold verify_token
  rw [if_neg hT]
  show (if a = "" then AuthResult.denied 401 "Missing Authorization header"
      (some "Bearer")
    else if pythonStrip (pythonReplace a "Bearer " "") ≠ T then
      AuthResult.denied 403 "Invalid authentication token" none
    else AuthResult.allowed) = _
  rw [if_neg ha]
  by_cases hm : pythonStrip (pythonReplace a "Bearer " "") = T
  · rw [if_neg (not_not_intro hm), if_pos hm]
  · rw [if_pos hm, if_neg hm]

theorem stream_generator_id (chunks : List (List Nat)) :
    stream_generator chunks = chunks := by
  induction chunks with
  | nil => rfl
  | cons c rest ih => simp [stream_generator, ih]

/-! ## Claim theorems -/

/-- C1, counterexample: with secret `secret123` the header value
`Bearer Bearer secret123` — which is neither the secret nor
`Bearer secret123` — is allowed, because line 95 removes every occurrence
of `"Bearer "` and strips whitespace before comparing. This refutes
"exactly the header values T and Bearer T are allowed". -/
theorem C1_counterexample :
    verify_token "secret123" (some "Bearer Bearer secret123")
      = AuthResult.allowed ∧
    ("Bearer Bearer secret123" : String) ≠ "secret123" ∧
    ("Bearer Bearer secret123" : String) ≠ "Bearer " ++ "secret123" := by
  decide

/-- C1 (amended): with no secret every request is allowed. With a secret
`T`, an absent (or empty) header is denied 401 `MissingCredential`
advertising the Bearer scheme; a present header `a` is allowed exactly when
removing every occurrence of `"Bearer "` from `a` and stripping surrounding
whitespace yields `T`, and otherwise denied 403 `InvalidCredential`. In
particular `T` itself and `"Bearer " ++ T` are allowed whenever `T` does
not contain `"Bearer "` and carries no surrounding whitespace. -/
theorem C1_theorem (T : String) (hT : T ≠ "") (a : String) (ha : a ≠ "") :
    (∀ b : Option String, verify_token "" b = AuthResult.allowed) ∧
    verify_token T none
      = AuthResult.denied 401 "Missing Authorization header" (some "Bearer") ∧
    (pythonStrip (pythonReplace a "Bearer " "") = T →
      verify_token T (some a) = AuthResult.allowed) ∧
    (pythonStrip (pythonReplace a "Bearer " "") ≠ T →
      verify_token T (some a)
        = AuthResult.denied 403 "Invalid authentication token" none) ∧
    (strContains T "Bearer " = false → pythonStrip T = T →
      verify_token T (some T) = AuthResult.allowed ∧
      verify_token T (some ("Bearer " ++ T)) = AuthResult.allowed) := by
  refine ⟨?_, ?_, ?_, ?_, ?_⟩
  · intro b
    unfold verify_token
    rw [if_pos rfl]
  · unfold verify_token
    rw [if_neg hT]
  · intro hm
    rw [verify_token_some T a hT ha, if_pos hm]
  · intro hm
    rw [verify_token_some T a hT ha, if_neg hm]
  · intro hocc hstrip
    have hTallowed : verify_token T (some T) = AuthResult.allowed := by
      rw [verify_token_some T T hT hT,
        pythonReplace_no_occur T "Bearer " "" hocc, if_pos hstrip]
    refine ⟨hTallowed, ?_⟩
    have hBne : ("Bearer " ++ T) ≠ "" := by
      intro hcontra
      have hlen := congrArg String.length hcontra
      rw [String.length_append] at hlen
      rw [show ("Bearer " : String).length = 7 from rfl] at hlen
      rw [show ("" : String).length = 0 from rfl] at hlen
      omega
    rw [verify_token_some T ("Bearer " ++ T) hT hBne,
      pythonReplace_strip_lead "Bearer " T (by decide) hocc,
      if_pos hstrip]

/-- C1, witness: concrete evaluations of the amended authorization claim at
secret `secret123`. -/
theorem C1_witness :
    verify_token "" (some "anything") = AuthResult.allowed ∧
    verify_token "secret123" none
      = AuthResult.denied 401 "Missing Authorization header" (some "Bearer") ∧
    verify_token "secret123" (some "wrong")
      = AuthResult.denied 403 "Invalid authentication token" none ∧
    verify_token "secret123" (some "secret123") = AuthResult.allowed ∧
    verify_token "secret123" (some "Bearer secret123")
      = AuthResult.allowed := by
  have H := C1_theorem "secret123" (by decide) "wrong" (by decide)
  refine ⟨H.1 (some "anything"), H.2.1, H.2.2.2.1 (by decide), ?_, ?_⟩
  · exact (H.2.2.2.2 (by decide) (by decide)).1
  · exact (H.2.2.2.2 (by decide) (by decide)).2

/-- C2: for a configured instance name `n` (slash-free and nonempty, as the
route template requires) and any forward path `p`, a request `/n/p` matches
the instance route and is forwarded to backend `n`'s base URL with forward
path `p`. -/
theorem C2_theorem (BACKENDS : List (String × String))
    (DEFAULT n p url m : String)
    (hurl : dictGet BACKENDS n = some url)
    (hm : HTTP_METHODS.contains m = true) (hn : n ≠ "")
    (hs : '/' ∉ n.data) :
    route_dispatch m (n ++ "/" ++ p)
      = some (MatchedRoute.withInstance n p) ∧
    proxy_with_instance_handler BACKENDS DEFAULT n p
      = HandlerResult.forward (url ++ "/" ++ p) := by
  refine ⟨route_dispatch_two_seg m n p hm hn hs, ?_⟩
  unfold proxy_with_instance_handler
  rw [hurl]

/-- C2, witness: the spec scenario — config
`a:localhost:11434,b:localhost:11435`, request `GET /a/api/tags` is
forwarded to `http://localhost:11434/api/tags`. -/
theorem C2_witness :
    route_dispatch "GET" ("a" ++ "/" ++ "api/tags")
      = some (MatchedRoute.withInstance "a" "api/tags") ∧
    proxy_with_instance_handler
      (parse_ollama_instances "a:localhost:11434,b:localhost:11435")
      "http://localhost:11434" "a" "api/tags"
      = HandlerResult.forward ("http://localhost:11434" ++ "/" ++ "api/tags") :=
  C2_theorem (parse_ollama_instances "a:localhost:11434,b:localhost:11435")
    "http://localhost:11434" "a" "api/tags" "http://localhost:11434" "GET"
    (by decide) (by decide) (by decide) (by decide)

/-- C3: for a first segment `s` that is not a configured instance name and a
nonempty remainder `p`, a request `/s/p` matches the instance route but is
forwarded to the default backend with forward path `s/p` — the first
segment is preserved, not dropped. -/
theorem C3_theorem (BACKENDS : List (String × String))
    (DEFAULT s p m : String)
    (hunk : dictGet BACKENDS s = none)
    (hm : HTTP_METHODS.contains m = true) (hsne : s ≠ "")
    (hss : '/' ∉ s.data) (hp : p ≠ "") :
    route_dispatch m (s ++ "/" ++ p)
      = some (MatchedRoute.withInstance s p) ∧
    proxy_with_instance_handler BACKENDS DEFAULT s p
      = HandlerResult.forward (DEFAULT ++ "/" ++ (s ++ "/" ++ p)) := by
  refine ⟨route_dispatch_two_seg m s p hm hsne hss, ?_⟩
  unfold proxy_with_instance_handler
  rw [hunk]
  simp [hp]

/-- C3, witness: the spec scenario — same config, request
`GET /unknown/api/tags` goes to the default backend as
`http://localhost:11434/unknown/api/tags`. -/
theorem C3_witness :
    route_dispatch "GET" ("unknown" ++ "/" ++ "api/tags")
      = some (MatchedRoute.withInstance "unknown" "api/tags") ∧
    proxy_with_instance_handler
      (parse_ollama_instances "a:localhost:11434,b:localhost:11435")
      "http://localhost:11434" "unknown" "api/tags"
      = HandlerResult.forward
          ("http://localhost:11434" ++ "/" ++ ("unknown" ++ "/" ++ "api/tags")) :=
  C3_theorem (parse_ollama_instances "a:localhost:11434,b:localhost:11435")
    "http://localhost:11434" "unknown" "api/tags" "GET"
    (by decide) (by decide) (by decide) (by decide) (by decide)

/-- C4, counterexample: in streaming mode the status code returned to the
caller is the `StreamingResponse` default 200, not the backend's status —
here the backend answers 500 in streaming mode yet the caller sees 200.
This refutes "the status code returned to the caller equals the backend
response's status code". -/
theorem C4_counterexample :
    is_stream_request (some (Json.obj [("stream", Json.bool true)])) = true ∧
    relay_stream ⟨500, [[1], [2, 3]]⟩ = (200, [[1], [2, 3]]) ∧
    (relay_stream ⟨500, [[1], [2, 3]]⟩).1 ≠ 500 := by
  exact ⟨rfl, rfl, by decide⟩

/-- C4 (amended): for every request whose body selects streaming mode, the
caller receives status 200 regardless of the backend's status code (the
backend status is not relayed), while the body chunks are relayed to the
caller in exactly the order received, and incrementally: the output
produced after any prefix of the input is the corresponding prefix of the
output (no whole-body buffering). -/
theorem C4_theorem (body_json : Option Json) (resp : BackendStreamResponse)
    (_hstream : is_stream_request body_json = true) :
    (relay_stream resp).1 = 200 ∧
    (relay_stream resp).2 = resp.chunks ∧
    (∀ k, stream_generator (resp.chunks.take k)
      = (stream_generator resp.chunks).take k) := by
  refine ⟨rfl, stream_generator_id resp.chunks, ?_⟩
  intro k
  rw [stream_generator_id, stream_generator_id]

/-- C4, witness: a concrete streaming request (body `stream: true`) whose
backend answers 404 with two chunks; the relay returns 200 and the chunks
unchanged. -/
theorem C4_witness :
    is_stream_request (some (Json.obj [("stream", Json.bool true)])) = true ∧
    (relay_stream ⟨404, [[7], [8]]⟩).1 = 200 ∧
    (relay_stream ⟨404, [[7], [8]]⟩).2 = [[7], [8]] := by
  have H := C4_theorem (some (Json.obj [("stream", Json.bool true)]))
    ⟨404, [[7], [8]]⟩ rfl
  exact ⟨rfl, H.1, H.2.1⟩

/-- C5: a non-streaming response whose nonempty body parses as JSON is
relayed with identical content and the backend's original status code; a
body that fails to parse is wrapped as `{"raw_response": text}` with the
status still relayed, instead of failing the request. -/
theorem C5_theorem (status : Nat) (text : String)
    (parse : String → Option Json) (j : Json) (hne : text ≠ "") :
    (parse text = some j →
      reconstruct_response status text parse = (status, j)) ∧
    (parse text = none →
      reconstruct_response status text parse
        = (status, Json.obj [("raw_response", Json.str text)])) := by
  constructor <;> intro hp <;> simp [reconstruct_response, hne, hp]

/-- C5, witness: body `[]` round-trips with status 200; unparseable body
`oops` is wrapped with status 404 preserved. -/
theorem C5_witness :
    reconstruct_response 200 "[]" parseEmptyArr = (200, Json.arr []) ∧
    reconstruct_response 404 "oops" parseEmptyArr
      = (404, Json.obj [("raw_response", Json.str "oops")]) := by
  refine ⟨?_, ?_⟩
  · exact (C5_theorem 200 "[]" parseEmptyArr (Json.arr []) (by decide)).1 rfl
  · exact (C5_theorem 404 "oops" parseEmptyArr (Json.arr []) (by decide)).2 rfl

/-- C6: dispatch failures before a response has begun map to distinct
statuses — a connection error to 502 with a detail mentioning connectivity,
a timeout to 504, any other exception to 500 with the underlying message
included in the detail — and every such error body is a JSON object with a
`detail` field. -/
theorem C6_theorem (msg : String) :
    handle_dispatch_error (DispatchError.connectError msg)
      = (502, Json.obj
          [("detail",
            Json.str ("Cannot connect to Ollama backend: " ++ msg))]) ∧
    strContains ("Cannot connect to Ollama backend: " ++ msg) "connect"
      = true ∧
    handle_dispatch_error (DispatchError.timeoutError msg)
      = (504, Json.obj [("detail", Json.str "Ollama backend timeout")]) ∧
    (handle_dispatch_error (DispatchError.otherError msg)).1 = 500 ∧
    json_detail (handle_dispatch_error (DispatchError.otherError msg)).2
      = some ("Proxy error: " ++ msg) ∧
    strContains ("Proxy error: " ++ msg) msg = true ∧
    (∀ e : DispatchError,
      (json_detail (handle_dispatch_error e).2).isSome = true) := by
  refine ⟨rfl, ?_, rfl, rfl, rfl, ?_, ?_⟩
  · unfold strContains
    rw [strData_append]
    exact hasOccur_append_left _ (by decide)
  · unfold strContains
    rw [strData_append]
    exact hasOccur_append_pat msg.data ("Proxy error: ").data
  · intro e
    cases e <;> rfl

/-- C7: when the inbound header names are distinct (as Starlette presents
them), the outbound header set is exactly the inbound one filtered of
`host` and `authorization` (compared lowercased), every other header
passing through unchanged. -/
theorem C7_theorem (headers : List (String × String))
    (h : (headers.map Prod.fst).Nodup) :
    build_outbound_headers headers
      = headers.filter
          (fun kv =>
            !(["host", "authorization"].contains (pythonLower kv.1))) ∧
    (∀ kv : String × String,
      kv ∈ build_outbound_headers headers ↔
        kv ∈ headers ∧ pythonLower kv.1 ≠ "host" ∧
          pythonLower kv.1 ≠ "authorization") := by
  have heq := build_outbound_headers_eq_filter headers h
  refine ⟨heq, fun kv => ?_⟩
  rw [heq, List.mem_filter]
  simp

/-- C7, witness: a concrete header set — `Host` and `Authorization` are
removed (case-insensitively), `Accept` passes through. -/
theorem C7_witness :
    build_outbound_headers
      [("Host", "example.com"), ("Authorization", "Bearer tok"),
       ("Accept", "application/json")]
      = [("Accept", "application/json")] := by
  have H := C7_theorem
    [("Host", "example.com"), ("Authorization", "Bearer tok"),
     ("Accept", "application/json")] (by decide)
  exact H.1.trans (by decide)

/-- C8, counterexample: a configuration string yielding no valid entries
leaves the registry mapping empty — no synthetic entry is substituted into
the mapping; the hardcoded fallback only becomes the separate
`DEFAULT_BACKEND` URL. This refutes "the mapping is non-empty after
initialization". -/
theorem C8_counterexample :
    parse_ollama_instances "" = [] ∧
    DEFAULT_BACKEND (parse_ollama_instances "")
      = "http://localhost:11434" := by
  exact ⟨by decide, rfl⟩

/-- C8 (amended): when the configuration yields no valid entries the
mapping stays empty and no error is raised; the synthetic default
`http://localhost:11434` is substituted as the default backend URL, so
every lookup still resolves to it. -/
theorem C8_theorem (cfg : String)
    (h : parse_ollama_instances cfg = []) :
    DEFAULT_BACKEND (parse_ollama_instances cfg)
      = "http://localhost:11434" ∧
    (∀ name : Option String,
      get_backend_url (parse_ollama_instances cfg) name
        = "http://localhost:11434") := by
  rw [h]
  refine ⟨rfl, ?_⟩
  intro name
  cases name with
  | none => rfl
  | some n =>
    by_cases hn : n ≠ "" <;>
      simp [get_backend_url, dictGet, DEFAULT_BACKEND, hn]

/-- C8, witness: a configuration of only malformed entries yields the
fallback default for the default URL and for every resolution. -/
theorem C8_witness :
    DEFAULT_BACKEND (parse_ollama_instances "not a valid entry")
      = "http://localhost:11434" ∧
    get_backend_url (parse_ollama_instances "not a valid entry") (some "x")
      = "http://localhost:11434" := by
  have H := C8_theorem "not a valid entry" (by decide)
  exact ⟨H.1, H.2 (some "x")⟩

/-- C9: a GET request to the root path or to `/health` matches the
credential-free literal routes and is answered locally with status 200 for
every authorization header state — unlike the two catch-all proxy routes,
which both declare the token check. -/
theorem C9_theorem (BACKENDS : List (String × String))
    (DEFAULT API_TOKEN : String) (authorization : Option String) :
    handle_request BACKENDS DEFAULT API_TOKEN "GET" "" authorization
      = some (Sum.inl (root_handler BACKENDS API_TOKEN)) ∧
    handle_request BACKENDS DEFAULT API_TOKEN "GET" "health" authorization
      = some (Sum.inl health_handler) ∧
    (root_handler BACKENDS API_TOKEN).statusOf = some 200 ∧
    health_handler.statusOf = some 200 ∧
    (∀ i p, route_requires_auth (MatchedRoute.withInstance i p) = true) ∧
    (∀ p, route_requires_auth (MatchedRoute.defaultRoute p) = true) :=
  ⟨rfl, rfl, rfl, rfl, fun _ _ => rfl, fun _ => rfl⟩

/-- C10, counterexample: with configuration `health:11434` the name
`health` is a configured instance, yet a POST request whose entire path is
`/health` is answered locally by the default route's early return — it is
not forwarded to the default backend with forward path `health`. This
refutes the claim for the configured name `health`. -/
theorem C10_counterexample :
    dictGet (parse_ollama_instances "health:11434") "health"
      = some "http://localhost:11434" ∧
    route_dispatch "POST" "health"
      = some (MatchedRoute.defaultRoute "health") ∧
    proxy_default_handler "http://localhost:11434" "health"
      = HandlerResult.answer 200 (Json.obj [("status", Json.str "ok")]) ∧
    proxy_default_handler "http://localhost:11434" "health"
      ≠ HandlerResult.forward
          ("http://localhost:11434" ++ "/" ++ "health") := by
  refine ⟨rfl, by decide, rfl, ?_⟩
  intro hcontra
  exact HandlerResult.noConfusion hcontra

/-- C10 (amended): for every configured instance name `n` other than `""`
and `"health"` (slash-free, as a path segment is), a request whose entire
path is `/n` matches the default route and is forwarded to the default
backend with forward path `n`; the instance route is matched only when a
slash follows `/n`. -/
theorem C10_theorem (BACKENDS : List (String × String))
    (DEFAULT n u m : String)
    (_hmem : (n, u) ∈ BACKENDS) (hm : HTTP_METHODS.contains m = true)
    (h1 : n ≠ "") (h2 : n ≠ "health") (hs : '/' ∉ n.data) :
    route_dispatch m n = some (MatchedRoute.defaultRoute n) ∧
    proxy_default_handler DEFAULT n
      = HandlerResult.forward (DEFAULT ++ "/" ++ n) ∧
    (∀ q, route_dispatch m (n ++ "/" ++ q)
      = some (MatchedRoute.withInstance n q)) := by
  refine ⟨route_dispatch_one_seg m n hm h1 h2 hs, ?_,
    fun q => route_dispatch_two_seg m n q hm h1 hs⟩
  unfold proxy_default_handler
  rw [if_neg (fun hc => hc.elim h1 h2)]

/-- C10, witness: configured instance `llama`; a POST to `/llama` goes to
the default route and is forwarded to the default backend with path
`llama`; `/llama/x` selects the instance route. -/
theorem C10_witness :
    route_dispatch "POST" "llama"
      = some (MatchedRoute.defaultRoute "llama") ∧
    proxy_default_handler "http://localhost:11434" "llama"
      = HandlerResult.forward ("http://localhost:11434" ++ "/" ++ "llama") ∧
    route_dispatch "POST" ("llama" ++ "/" ++ "x")
      = some (MatchedRoute.withInstance "llama" "x") := by
  have H := C10_theorem (parse_ollama_instances "llama:11434")
    "http://localhost:11434" "llama" "http://localhost:11434" "POST"
    (by decide) (by decide) (by decide) (by decide) (by decide)
  exact ⟨H.1, H.2.1, H.2.2 "x"⟩

end OllamaProxy
